import Mathlib

/-!
Shallow embedding of the custom-elements polyfill patch layer:
`src/packages/custom-elements/src/Patch/Node.js` (patched `Node.prototype`
methods) and the `Element.prototype` patch file (`src/unnamed/part_000`).

Each patched operation is translated into a Lean function that returns the
ordered trace of `internals` calls and native-primitive calls it performs
(the `Event` list).  Queries the JavaScript makes against the live tree
(`x instanceof DocumentFragment`, `x instanceof Element`,
`Utilities.isConnected(x)` — the latter defined outside the given sources)
are oracle `Bool` parameters of the Lean functions; a query that the source
performs twice, once before and once after the native mutation, becomes two
separate parameters, since the native mutation may change its answer.
-/

namespace CEPolyfill

/-- `__CE_state` values (`CustomElementState.js`, outside the given sources):
`uncustomized`, `undefined`, `failed`, `custom`. -/
inductive CEState where
  | uncustomized
  | undefinedState
  | failed
  | custom
deriving DecidableEq, Repr

/-- One observable step of a patched operation: an `internals` call or a
native-primitive call.  `native s` marks the single underlying native
mutation (`Native.Node_insertBefore.call`, `baseDescriptor.set.call`, …),
tagged with the operation name `s`. -/
inductive Event where
  | push
  | pop
  | native (op : String)
  | connectTree (n : Nat)
  | disconnectTree (n : Nat)
  | patchTree (n : Nat)
  | patchAndUpgradeTree (n : Nat)
  | attributeChangedCallback (n : Nat) (name : String) (old new : Option String)
      (ns : Option String)
  | disconnectedCallback (n : Nat)
deriving DecidableEq, Repr

/-- Patched `Node.prototype.insertBefore` (Patch/Node.js lines 22–59),
as the trace of calls it performs.  `nodeIsFragment` is
`node instanceof DocumentFragment`, `nodeIsElement` is
`node instanceof Element`, `thisConnected` is `Utilities.isConnected(this)`,
and `nodeConnectedPre` / `nodeConnectedPost` are the two
`Utilities.isConnected(node)` queries made before and after the native
insertion. -/
def insertBefore (nodeIsFragment nodeIsElement thisConnected
    nodeConnectedPre nodeConnectedPost : Bool) (node : Nat) : List Event :=
  [Event.push] ++
  (if nodeIsFragment then
    (if thisConnected then [Event.connectTree node] else []) ++
    [Event.native "insertBefore", Event.pop]
  else
    (if nodeIsElement && nodeConnectedPre then [Event.disconnectTree node] else []) ++
    [Event.native "insertBefore"] ++
    (if nodeIsElement && nodeConnectedPost then [Event.connectTree node] else []) ++
    [Event.pop])

/-- Patched `Node.prototype.appendChild` (Patch/Node.js lines 61–97); same
structure as `insertBefore` without the reference child. -/
def appendChild (nodeIsFragment nodeIsElement thisConnected
    nodeConnectedPre nodeConnectedPost : Bool) (node : Nat) : List Event :=
  [Event.push] ++
  (if nodeIsFragment then
    (if thisConnected then [Event.connectTree node] else []) ++
    [Event.native "appendChild", Event.pop]
  else
    (if nodeIsElement && nodeConnectedPre then [Event.disconnectTree node] else []) ++
    [Event.native "appendChild"] ++
    (if nodeIsElement && nodeConnectedPost then [Event.connectTree node] else []) ++
    [Event.pop])

/-- Patched `Node.prototype.cloneNode` (Patch/Node.js lines 99–119).
`ownerDocRegistry` is the truthiness of `this.ownerDocument.__CE_registry`;
`clone` is the node returned by the native clone. -/
def cloneNode (ownerDocRegistry : Bool) (clone : Nat) : List Event :=
  [Event.push, Event.native "cloneNode"] ++
  (if !ownerDocRegistry then [Event.patchTree clone] else [Event.patchAndUpgradeTree clone]) ++
  [Event.pop]

/-- Patched `Node.prototype.removeChild` (Patch/Node.js lines 121–137). -/
def removeChild (nodeIsElement nodeConnected : Bool) (node : Nat) : List Event :=
  [Event.push] ++
  (if nodeIsElement && nodeConnected then [Event.disconnectTree node] else []) ++
  [Event.native "removeChild", Event.pop]

/-- Patched `Node.prototype.replaceChild` (Patch/Node.js lines 139–184). -/
def replaceChild (insertIsFragment insertIsElement thisConnected
    insertConnectedPre : Bool) (nodeToInsert nodeToRemove : Nat) : List Event :=
  [Event.push] ++
  (if insertIsFragment then
    (if thisConnected then
      [Event.disconnectTree nodeToRemove, Event.connectTree nodeToInsert] else []) ++
    [Event.native "replaceChild", Event.pop]
  else
    (if thisConnected then [Event.disconnectTree nodeToRemove] else []) ++
    (if insertIsElement then
      (if insertConnectedPre then [Event.disconnectTree nodeToInsert] else []) ++
      (if thisConnected then [Event.connectTree nodeToInsert] else [])
    else []) ++
    [Event.native "replaceChild", Event.pop])

/-- Patched `Node.prototype.textContent` setter (Patch/Node.js lines
187–213).  `isTextNode` is `this.nodeType === Node.TEXT_NODE`; `children`
is the child list `this.firstChild … .nextSibling` iterated by the
disconnect loop. -/
def textContent_set (isTextNode thisConnected : Bool) (children : List Nat) : List Event :=
  [Event.push] ++
  (if isTextNode then
    [Event.native "textContent", Event.pop]
  else
    (if thisConnected then children.map Event.disconnectTree else []) ++
    [Event.native "textContent", Event.pop])

/-- Patched `Element.prototype.insertAdjacentElement` (part_000 lines
262–284).  `wasConnected` is `Utilities.isConnected(element)` read before
the native call; `insertedConnectedPost` is
`Utilities.isConnected(insertedElement)` read after it.  Note: no reaction
frame is pushed, and the native call comes first. -/
def insertAdjacentElement (wasConnected insertedConnectedPost : Bool)
    (element : Nat) : List Event :=
  [Event.native "insertAdjacentElement"] ++
  (if wasConnected then [Event.disconnectTree element] else []) ++
  (if insertedConnectedPost then [Event.connectTree element] else [])

/-! ### Attribute operations (part_000 lines 183–259)

The native attribute store of an element and the native accessors
(`Native.Element_getAttribute`, `Native.Element_setAttribute`, … — external
collaborators outside the given sources) are kept abstract: an explicit
`NativeApi` record of functions over a concrete `Store` type.  This keeps
the read-back behaviour observable: the native setter may normalise the
stored value, so the value read back after a mutation need not equal the
requested one. -/

/-- The native attribute store: ordered (namespace, local name) ↦ value
entries. -/
abbrev Store := List ((Option String × String) × String)

/-- The native attribute accessors consumed by the patched operations.
Field names follow `Native.Element_*`. -/
structure NativeApi where
  getAttribute : Store → String → Option String
  setAttribute : Store → String → String → Store
  removeAttribute : Store → String → Store
  getAttributeNS : Store → Option String → String → Option String
  setAttributeNS : Store → Option String → String → String → Store
  removeAttributeNS : Store → Option String → String → Store

/-- A reference native store implementation with no value normalisation:
plain association-list lookup / replace / delete, the non-namespaced
operations using the `none` namespace. -/
def stdApi : NativeApi where
  getAttribute s name := (s.find? (fun e => e.1 = (none, name))).map (·.2)
  setAttribute s name v :=
    if s.any (fun e => e.1 = (none, name)) then
      s.map (fun e => if e.1 = (none, name) then (e.1, v) else e)
    else s ++ [((none, name), v)]
  removeAttribute s name := s.filter (fun e => e.1 ≠ (none, name))
  getAttributeNS s ns name := (s.find? (fun e => e.1 = (ns, name))).map (·.2)
  setAttributeNS s ns name v :=
    if s.any (fun e => e.1 = (ns, name)) then
      s.map (fun e => if e.1 = (ns, name) then (e.1, v) else e)
    else s ++ [((ns, name), v)]
  removeAttributeNS s ns name := s.filter (fun e => e.1 ≠ (ns, name))

/-- Element model for the patched attribute operations: identity, lifecycle
state (`__CE_state`), native attribute store, and the node's
recorded-attribute backlog.  The backlog field is modelled from the spec
(the sources given here never define or touch it): an ordered sequence of
(name, old, new, namespace) entries captured while construction is
deferred, replayed on upgrade. -/
structure Elem where
  id : Nat
  CE_state : CEState
  store : Store
  recordedAttrs : List (String × Option String × Option String × Option String)
deriving DecidableEq, Repr

/-- Patched `Element.prototype.setAttribute` (part_000 lines 183–199).
Fast path for non-custom elements: only the native call runs.  Otherwise
the old value is read natively before the native set, the new value is read
back natively after it, and `internals.attributeChangedCallback` is
dispatched with both. -/
def setAttribute (api : NativeApi) (el : Elem) (name newValue : String) :
    Elem × List Event :=
  if el.CE_state ≠ CEState.custom then
    ({ el with store := api.setAttribute el.store name newValue }, [])
  else
    let oldValue := api.getAttribute el.store name
    let store1 := api.setAttribute el.store name newValue
    let newValue1 := api.getAttribute store1 name
    ({ el with store := store1 },
      [Event.attributeChangedCallback el.id name oldValue newValue1 none])

/-- Patched `Element.prototype.setAttributeNS` (part_000 lines 201–218). -/
def setAttributeNS (api : NativeApi) (el : Elem) (namespace_ : Option String)
    (name newValue : String) : Elem × List Event :=
  if el.CE_state ≠ CEState.custom then
    ({ el with store := api.setAttributeNS el.store namespace_ name newValue }, [])
  else
    let oldValue := api.getAttributeNS el.store namespace_ name
    let store1 := api.setAttributeNS el.store namespace_ name newValue
    let newValue1 := api.getAttributeNS store1 namespace_ name
    ({ el with store := store1 },
      [Event.attributeChangedCallback el.id name oldValue newValue1 namespace_])

/-- Patched `Element.prototype.removeAttribute` (part_000 lines 220–236).
Dispatches with new value `null` — only when the old value was not `null`. -/
def removeAttribute (api : NativeApi) (el : Elem) (name : String) :
    Elem × List Event :=
  if el.CE_state ≠ CEState.custom then
    ({ el with store := api.removeAttribute el.store name }, [])
  else
    let oldValue := api.getAttribute el.store name
    let store1 := api.removeAttribute el.store name
    if oldValue ≠ none then
      ({ el with store := store1 },
        [Event.attributeChangedCallback el.id name oldValue none none])
    else
      ({ el with store := store1 }, [])

/-- Patched `Element.prototype.removeAttributeNS` (part_000 lines 238–259).
Reads the value back after removal (older engines may return `""` instead
of `null`) and dispatches only when old ≠ new. -/
def removeAttributeNS (api : NativeApi) (el : Elem) (namespace_ : Option String)
    (name : String) : Elem × List Event :=
  if el.CE_state ≠ CEState.custom then
    ({ el with store := api.removeAttributeNS el.store namespace_ name }, [])
  else
    let oldValue := api.getAttributeNS el.store namespace_ name
    let store1 := api.removeAttributeNS el.store namespace_ name
    let newValue := api.getAttributeNS store1 namespace_ name
    if oldValue ≠ newValue then
      ({ el with store := store1 },
        [Event.attributeChangedCallback el.id name oldValue newValue namespace_])
    else
      ({ el with store := store1 }, [])

/-! ### HTML setters and positional insertion (part_000 lines 27–147, 262–343) -/

/-- Exceptions thrown synchronously by the patched operations:
`invalidPositionError` models the JavaScript `SyntaxError` thrown by
`insertAdjacentHTML` for a bad position string; `noParentError` models the
plain `Error` thrown by the `outerHTML` setter on a parentless element. -/
inductive Exn where
  | invalidPositionError (msg : String)
  | noParentError (msg : String)
deriving DecidableEq, Repr

/-- A document, as seen by the patched operations: the truthiness of its
`__CE_registry` property (read by `cloneNode` in Patch/Node.js) and of its
`__CE_hasRegistry` property (read by the HTML setters in part_000).  Both
properties are set outside the given sources and both record that the
document is associated with the custom-element registry. -/
structure Doc where
  CE_registry : Bool
  CE_hasRegistry : Bool
deriving DecidableEq, Repr

/-- A tree of nodes, used to model the subtree of the element whose HTML is
being set: node identity plus whether the node is an element. -/
inductive ETree where
  | node (id : Nat) (isElement : Bool) (children : List ETree)

mutual

/-- Modelled from the spec: `Utilities.walkDeepDescendantElements` (the Tree
Walker, §4.3, defined in Utilities.js which is not among the given
sources) — yields every element node of the subtree in document pre-order,
including the root if it is an element; non-element nodes are skipped but
their descendants are still traversed. -/
def walkDeepDescendantElements : ETree → List Nat
  | ETree.node i isEl cs => (if isEl then [i] else []) ++ walkDeepList cs

/-- Pre-order walk of a forest (helper of `walkDeepDescendantElements`). -/
def walkDeepList : List ETree → List Nat
  | [] => []
  | t :: ts => walkDeepDescendantElements t ++ walkDeepList ts

end

/-- `element.__CE_state` lookup for the elements of a walked subtree: a side
table from node identity; a node with no entry has no `__CE_state` property
and is treated as `uncustomized`. -/
def stateOf (states : List (Nat × CEState)) (n : Nat) : CEState :=
  ((states.find? (fun e => e.1 = n)).map (·.2)).getD CEState.uncustomized

/-- `x.nextSibling` read off a parent's ordered child list. -/
def nextInList : List Nat → Nat → Option Nat
  | [], _ => none
  | [_], _ => none
  | a :: b :: rest, x => if a = x then some b else nextInList (b :: rest) x

/-- Pointer walk along a sibling chain: starting from `start`, follow
`nextSibling` (via `nextInList children`) and collect nodes until the walk
reaches `stop` (exclusive) or falls off the end of the chain.  `fuel` bounds
the walk (callers pass `children.length + 1`, enough to traverse the whole
chain). -/
def chainRange (children : List Nat) : Nat → Option Nat → Option Nat → List Nat
  | 0, _, _ => []
  | _ + 1, none, _ => []
  | fuel + 1, some s, stop =>
      if some s = stop then []
      else s :: chainRange children fuel (nextInList children s) stop

/-- The body of `patch_HTMLsetter` (part_000 lines 27–79), shared by the
patched `innerHTML` and `outerHTML` setters.  `isConnected` is
`Utilities.isConnected(this)`; `tree` is the pre-mutation subtree of `this`
walked by `Utilities.walkDeepDescendantElements` *before* the native setter
runs; `states` is the `__CE_state` side table; `parentNode`,
`previousSibling`, `nextSibling` are memoised before the native set;
`docHasRegistry` is the truthiness of `this.ownerDocument.__CE_hasRegistry`.
`patchCallback` tells which nodes the property-specific callback applies the
selected patch function to (or which exception it throws); the
caller-visible result is the ordered call trace plus the exception, if any —
events emitted before a throw are kept, as in the source. -/
def patch_HTMLsetter_set
    (patchCallback : Option Nat → Option Nat → Option Nat → Except Exn (List Nat))
    (docHasRegistry : Bool) (thisId : Nat) (isConnected : Bool)
    (tree : ETree) (states : List (Nat × CEState))
    (parentNode previousSibling nextSibling : Option Nat) :
    List Event × Option Exn :=
  let removedElements : Option (List Nat) :=
    if isConnected then
      some ((walkDeepDescendantElements tree).filter (fun e => e ≠ thisId))
    else none
  let setEvents := [Event.native "HTMLsetter"]
  let disconnectEvents :=
    match removedElements with
    | some l =>
        (l.filter (fun e => stateOf states e = CEState.custom)).map
          Event.disconnectedCallback
    | none => []
  let patchFn := if !docHasRegistry then Event.patchTree else Event.patchAndUpgradeTree
  match patchCallback parentNode previousSibling nextSibling with
  | Except.ok targets => (setEvents ++ disconnectEvents ++ targets.map patchFn, none)
  | Except.error e => (setEvents ++ disconnectEvents, some e)

/-- Patched `innerHTML` setter (part_000 lines 81–85): the callback applies
the patch function to `this` itself. -/
def patch_innerHTML_set (docHasRegistry : Bool) (thisId : Nat) (isConnected : Bool)
    (tree : ETree) (states : List (Nat × CEState))
    (parentNode previousSibling nextSibling : Option Nat) :
    List Event × Option Exn :=
  patch_HTMLsetter_set (fun _ _ _ => Except.ok [thisId])
    docHasRegistry thisId isConnected tree states parentNode previousSibling nextSibling

/-- The `outerHTML` patch callback (part_000 lines 131–147): throws when the
memoised parent is absent; otherwise applies the patch function to the
parent (when the element had no siblings) or to each node of the
post-mutation sibling range replacing the element.  `postParentChildren` is
the parent's child list after the native set (the callback reads
`previousSibling.nextSibling`, `parentNode.firstChild` and
`sibling.nextSibling` from the mutated tree). -/
def patch_outerHTML_callback (postParentChildren : List Nat)
    (parentNode previousSibling nextSibling : Option Nat) : Except Exn (List Nat) :=
  match parentNode with
  | none => Except.error (Exn.noParentError
      "Failed to set the outerHTML property on Element: This element has no parent node.")
  | some parent =>
    if previousSibling = none ∧ nextSibling = none then
      Except.ok [parent]
    else
      let start : Option Nat :=
        match previousSibling with
        | some p =>
            match nextInList postParentChildren p with
            | some nx => some nx
            | none => postParentChildren.head?
        | none => postParentChildren.head?
      Except.ok (chainRange postParentChildren (postParentChildren.length + 1)
        start nextSibling)

/-- Patched `outerHTML` setter (part_000 lines 131–147 via
`patch_HTMLsetter`). -/
def patch_outerHTML_set (docHasRegistry : Bool) (thisId : Nat) (isConnected : Bool)
    (tree : ETree) (states : List (Nat × CEState))
    (parentNode previousSibling nextSibling : Option Nat)
    (postParentChildren : List Nat) : List Event × Option Exn :=
  patch_HTMLsetter_set (patch_outerHTML_callback postParentChildren)
    docHasRegistry thisId isConnected tree states parentNode previousSibling nextSibling

/-- `upgradeNodesInRange` (part_000 lines 303–311): first materialises the
sibling range from `start` up to, but excluding, `stop` into the fixed list
`nodes` (the collection loop completes before any upgrade is invoked), then
applies `patchAndUpgradeTree` — modelled as an arbitrary state transformer
`upgrade` — to each collected node in order.  Returns the final state and
the collected list. -/
def upgradeNodesInRange {α : Type} (upgrade : α → Nat → α) (st : α)
    (children : List Nat) (start stop : Option Nat) : α × List Nat :=
  let nodes := chainRange children (children.length + 1) start stop
  (nodes.foldl upgrade st, nodes)

/-- `position.toLowerCase()` as used by the patched `insertAdjacentHTML`:
ASCII lower-casing (the four compared position values are pure ASCII). -/
def toLowerAscii (s : String) : String :=
  String.mk (s.data.map fun c =>
    if 65 ≤ c.toNat ∧ c.toNat ≤ 90 then Char.ofNat (c.toNat + 32) else c)

/-- The sibling-structure queries made by the patched `insertAdjacentHTML`:
`pre*` fields are read before the native call, `post*` fields after it. -/
structure AdjacentCtx where
  prePrevSibling : Option Nat
  preFirstChild : Option Nat
  preLastChild : Option Nat
  preNextSibling : Option Nat
  postParentChildren : List Nat
  postOwnChildren : List Nat
  postNextSibling : Option Nat
deriving DecidableEq, Repr

/-- Patched `Element.prototype.insertAdjacentHTML` (part_000 lines
295–343).  Lower-cases the position, remembers a range marker, performs the
native insertion, and upgrades the range of newly inserted siblings via
`upgradeNodesInRange`; any other position throws a `SyntaxError`
(`Exn.invalidPositionError`) with no native call.  Returns the final
upgrade state, the call trace, and the exception, if any. -/
def insertAdjacentHTML {α : Type} (upgrade : α → Nat → α) (st : α) (thisId : Nat)
    (ctx : AdjacentCtx) (position _text : String) : α × List Event × Option Exn :=
  let position := toLowerAscii position
  if position = "beforebegin" then
    let marker := ctx.prePrevSibling
    let start : Option Nat :=
      match marker with
      | some m => some m
      | none => ctx.postParentChildren.head?
    let r := upgradeNodesInRange upgrade st ctx.postParentChildren start (some thisId)
    (r.1, [Event.native "insertAdjacentHTML"] ++ r.2.map Event.patchAndUpgradeTree, none)
  else if position = "afterbegin" then
    let marker := ctx.preFirstChild
    let r := upgradeNodesInRange upgrade st ctx.postOwnChildren
      ctx.postOwnChildren.head? marker
    (r.1, [Event.native "insertAdjacentHTML"] ++ r.2.map Event.patchAndUpgradeTree, none)
  else if position = "beforeend" then
    let marker := ctx.preLastChild
    let start : Option Nat :=
      match marker with
      | some m => some m
      | none => ctx.postOwnChildren.head?
    let r := upgradeNodesInRange upgrade st ctx.postOwnChildren start none
    (r.1, [Event.native "insertAdjacentHTML"] ++ r.2.map Event.patchAndUpgradeTree, none)
  else if position = "afterend" then
    let marker := ctx.preNextSibling
    let r := upgradeNodesInRange upgrade st ctx.postParentChildren
      ctx.postNextSibling marker
    (r.1, [Event.native "insertAdjacentHTML"] ++ r.2.map Event.patchAndUpgradeTree, none)
  else
    (st, [], some (Exn.invalidPositionError
      ("The value provided (" ++ position ++
        ") is not one of beforebegin, afterbegin, beforeend, or afterend.")))

/-! ### Trace observations

Decidable observations on call traces, used to state the verified
properties: reaction-frame balance, position of engine calls relative to
the native mutation, and event classification. -/

/-- Is this event a `pushCEReactionsQueue` call? -/
def isPush : Event → Bool
  | Event.push => true
  | _ => false

/-- Is this event a `popCEReactionsQueue` call? -/
def isPop : Event → Bool
  | Event.pop => true
  | _ => false

/-- Is this event the native mutation call? -/
def isNative : Event → Bool
  | Event.native _ => true
  | _ => false

/-- Is this event a `connectTree` call? -/
def isConnectE : Event → Bool
  | Event.connectTree _ => true
  | _ => false

/-- Is this event a `disconnectTree` call? -/
def isDisconnectE : Event → Bool
  | Event.disconnectTree _ => true
  | _ => false

/-- Is this event a Connect/Disconnect engine call? -/
def isEngineCall (e : Event) : Bool := isConnectE e || isDisconnectE e

/-- Is this event a `disconnectedCallback` dispatch? -/
def isDisconnectedCb : Event → Bool
  | Event.disconnectedCallback _ => true
  | _ => false

/-- Is this event a `patchTree` call? -/
def isPatchTreeE : Event → Bool
  | Event.patchTree _ => true
  | _ => false

/-- Is this event a `patchAndUpgradeTree` call? -/
def isPatchAndUpgradeE : Event → Bool
  | Event.patchAndUpgradeTree _ => true
  | _ => false

/-- Reaction-stack depth check: starting from depth `d`, every `pop` must
have a matching earlier `push` and the trace must return to depth 0 at its
end.  `balancedFrom 0 tr = true` says the trace pairs push/pop correctly
and returns the stack to its entry depth. -/
def balancedFrom : Nat → List Event → Bool
  | d, [] => d == 0
  | d, Event.push :: rest => balancedFrom (d + 1) rest
  | 0, Event.pop :: _ => false
  | d + 1, Event.pop :: rest => balancedFrom d rest
  | d, _ :: rest => balancedFrom d rest

/-- A trace that performs no reaction-frame operation at all. -/
def noFrameOps (tr : List Event) : Bool := tr.all (fun e => !isPush e && !isPop e)

/-- The events emitted strictly before the first native call. -/
def beforeNative (tr : List Event) : List Event := tr.takeWhile (fun e => !isNative e)

/-- The events emitted strictly after the first native call. -/
def afterNative (tr : List Event) : List Event :=
  (tr.dropWhile (fun e => !isNative e)).drop 1

/-- The claim `C2` formalised as a trace check: no Connect/Disconnect
engine call occurs before the (first) native mutation. -/
def engineOnlyAfterNative (tr : List Event) : Bool :=
  (beforeNative tr).all (fun e => !isEngineCall e)

/-- The number of native calls in a trace. -/
def countNative (tr : List Event) : Nat := (tr.filter isNative).length

/-- The nodes passed to `patchAndUpgradeTree`, in dispatch order. -/
def visitedOf (tr : List Event) : List Nat :=
  tr.filterMap (fun e =>
    match e with
    | Event.patchAndUpgradeTree n => some n
    | _ => none)

/-- Did the operation throw the `SyntaxError` for an invalid position? -/
def isInvalidPositionErr : Option Exn → Bool
  | some (Exn.invalidPositionError _) => true
  | _ => false

/-- Did the operation throw the `Error` for a missing parent node? -/
def isNoParentErr : Option Exn → Bool
  | some (Exn.noParentError _) => true
  | _ => false

/-! ### Concrete inputs used by counterexamples and witnesses -/

/-- Concrete element in the `custom` state carrying attribute `x = a`. -/
def elemCustom : Elem :=
  { id := 1, CE_state := CEState.custom, store := [((none, "x"), "a")],
    recordedAttrs := [] }

/-- Concrete element in the `uncustomized` state with no attributes. -/
def elemUncustomized : Elem :=
  { id := 2, CE_state := CEState.uncustomized, store := [], recordedAttrs := [] }

/-- A document associated with the registry (both registry properties
set). -/
def docReg : Doc := { CE_registry := true, CE_hasRegistry := true }

/-- A one-element subtree rooted at node 1. -/
def treeOne : ETree := ETree.node 1 true []

/-- Sibling-structure queries of an element with no siblings and no
children. -/
def ctxEmpty : AdjacentCtx :=
  { prePrevSibling := none, preFirstChild := none, preLastChild := none,
    preNextSibling := none, postParentChildren := [], postOwnChildren := [],
    postNextSibling := none }

/-! ### Helper lemmas -/

/-- A block of `disconnectTree` calls does not change the reaction-stack
depth check. -/
lemma balancedFrom_disconnects (d : Nat) (l : List Nat) (rest : List Event) :
    balancedFrom d (l.map Event.disconnectTree ++ rest) = balancedFrom d rest := by
  induction l with
  | nil => rfl
  | cons x xs ih => simp [balancedFrom, ih]

/-- The patched `textContent` setter trace ends with the `pop`. -/
lemma getLast?_textContent (cs : List Nat) :
    (Event.push :: (cs.map Event.disconnectTree ++
      [Event.native "textContent", Event.pop])).getLast? = some Event.pop := by
  rw [show Event.push :: (cs.map Event.disconnectTree ++
        [Event.native "textContent", Event.pop]) =
      (Event.push :: (cs.map Event.disconnectTree ++ [Event.native "textContent"])) ++
        [Event.pop] by simp, List.getLast?_concat]

/-! ### C1 — reaction-frame pairing -/

/-- C1 counterexample: the claim requires every patched attribute-mutating
operation — `setAttribute` among them — to push a reaction-queue frame on
entry.  The patched `setAttribute`, run on a custom-state element (so it
takes its full, non-fast path and dispatches a callback), performs no
`push` and no `pop` at all. -/
theorem C1_counterexample :
    Event.push ∉ (setAttribute stdApi elemCustom "x" "b").2
  ∧ Event.pop ∉ (setAttribute stdApi elemCustom "x" "b").2
  ∧ (setAttribute stdApi elemCustom "x" "b").2 ≠ [] := by decide

/-- C1 (amended): the six `Node.prototype` patched operations of
Patch/Node.js (`insertBefore`, `appendChild`, `cloneNode`, `removeChild`,
`replaceChild`, the `textContent` setter) push a reaction-queue frame on
entry and execute the matching pop on every exit path — each trace starts
with `push`, ends with `pop`, and is balanced, so the stack returns to its
entry depth.  The `Element.prototype` patched operations of part_000
(`setAttribute`, `setAttributeNS`, `removeAttribute`, `removeAttributeNS`,
`insertAdjacentElement`, `insertAdjacentHTML`, and the `innerHTML` /
`outerHTML` setters) push no frame at all: their traces contain no frame
operation. -/
theorem C1_frame_pairing :
    (∀ (frag isEl conn pre post : Bool) (n : Nat),
        balancedFrom 0 (insertBefore frag isEl conn pre post n) = true
      ∧ (insertBefore frag isEl conn pre post n).head? = some Event.push
      ∧ (insertBefore frag isEl conn pre post n).getLast? = some Event.pop
      ∧ balancedFrom 0 (appendChild frag isEl conn pre post n) = true
      ∧ (appendChild frag isEl conn pre post n).head? = some Event.push
      ∧ (appendChild frag isEl conn pre post n).getLast? = some Event.pop)
  ∧ (∀ (reg : Bool) (c : Nat),
        balancedFrom 0 (cloneNode reg c) = true
      ∧ (cloneNode reg c).head? = some Event.push
      ∧ (cloneNode reg c).getLast? = some Event.pop)
  ∧ (∀ (isEl conn : Bool) (n : Nat),
        balancedFrom 0 (removeChild isEl conn n) = true
      ∧ (removeChild isEl conn n).head? = some Event.push
      ∧ (removeChild isEl conn n).getLast? = some Event.pop)
  ∧ (∀ (frag isEl conn pre : Bool) (n m : Nat),
        balancedFrom 0 (replaceChild frag isEl conn pre n m) = true
      ∧ (replaceChild frag isEl conn pre n m).head? = some Event.push
      ∧ (replaceChild frag isEl conn pre n m).getLast? = some Event.pop)
  ∧ (∀ (txt conn : Bool) (cs : List Nat),
        balancedFrom 0 (textContent_set txt conn cs) = true
      ∧ (textContent_set txt conn cs).head? = some Event.push
      ∧ (textContent_set txt conn cs).getLast? = some Event.pop)
  ∧ (∀ (api : NativeApi) (e : Elem) (name v : String) (ns : Option String),
        noFrameOps (setAttribute api e name v).2 = true
      ∧ noFrameOps (setAttributeNS api e ns name v).2 = true
      ∧ noFrameOps (removeAttribute api e name).2 = true
      ∧ noFrameOps (removeAttributeNS api e ns name).2 = true)
  ∧ (∀ (w p : Bool) (n : Nat), noFrameOps (insertAdjacentElement w p n) = true)
  ∧ (∀ (α : Type) (u : α → Nat → α) (st : α) (thisId : Nat) (ctx : AdjacentCtx)
        (pos t : String),
        noFrameOps (insertAdjacentHTML u st thisId ctx pos t).2.1 = true)
  ∧ (∀ (cb : Option Nat → Option Nat → Option Nat → Except Exn (List Nat)) (reg : Bool)
        (thisId : Nat) (conn : Bool) (tree : ETree) (states : List (Nat × CEState))
        (pn ps ns : Option Nat),
        noFrameOps (patch_HTMLsetter_set cb reg thisId conn tree states pn ps ns).1 = true) := by
  refine ⟨?_, ?_, ?_, ?_, ?_, ?_, ?_, ?_, ?_⟩
  · intro a b c d e n
    cases a <;> cases b <;> cases c <;> cases d <;> cases e <;>
      exact ⟨rfl, rfl, rfl, rfl, rfl, rfl⟩
  · intro a c; cases a <;> exact ⟨rfl, rfl, rfl⟩
  · intro a b n; cases a <;> cases b <;> exact ⟨rfl, rfl, rfl⟩
  · intro a b c d n m
    cases a <;> cases b <;> cases c <;> cases d <;> exact ⟨rfl, rfl, rfl⟩
  · intro a b cs
    cases a <;> cases b <;>
      refine ⟨?_, rfl, ?_⟩ <;>
        simp [textContent_set, balancedFrom, balancedFrom_disconnects, getLast?_textContent]
  · intro api e name v ns
    obtain ⟨i, s, st, rec⟩ := e
    refine ⟨?_, ?_, ?_, ?_⟩
    · cases s <;> rfl
    · cases s <;> rfl
    · cases s <;>
        first
          | rfl
          | (rcases h : api.getAttribute st name with _ | val <;>
              simp [removeAttribute, h, noFrameOps, isPush, isPop])
    · cases s <;>
        first
          | rfl
          | (by_cases h : api.getAttributeNS st ns name =
                api.getAttributeNS (api.removeAttributeNS st ns name) ns name <;>
              simp [removeAttributeNS, h, noFrameOps, isPush, isPop])
  · intro w p n; cases w <;> cases p <;> rfl
  · intro α u st thisId ctx pos t
    simp only [insertAdjacentHTML, upgradeNodesInRange]
    split <;> (try split) <;> (try split) <;> (try split) <;>
      simp [noFrameOps, List.all_eq_true, List.mem_map, isPush, isPop]
  · intro cb reg thisId conn tree states pn ps ns
    simp only [patch_HTMLsetter_set]
    cases hcb : cb pn ps ns <;> cases conn <;> cases reg <;>
      simp [hcb, noFrameOps, List.all_eq_true, List.mem_map, List.mem_append,
        isPush, isPop] <;>
      (intros; subst_vars; exact ⟨rfl, rfl⟩)

/-! ### C2 — position of engine calls relative to the native mutation -/

/-- A block of `disconnectTree` calls contributes no native call. -/
lemma countNative_disconnects (l : List Nat) (rest : List Event) :
    countNative (l.map Event.disconnectTree ++ rest) = countNative rest := by
  induction l with
  | nil => rfl
  | cons x xs ih => simp [countNative, isNative, ih]

/-- The events after the first native call are unaffected by a leading
block of `disconnectTree` calls. -/
lemma afterNative_disconnects (l : List Nat) (rest : List Event) :
    afterNative (l.map Event.disconnectTree ++ rest) = afterNative rest := by
  induction l with
  | nil => rfl
  | cons x xs ih => simp [afterNative, isNative, List.dropWhile, ih]

/-- C2 counterexample: the claim says no `connectTree` or `disconnectTree`
call of an operation happens before that operation's native mutation; but
the patched `removeChild`, applied to a connected element child, calls
`disconnectTree` *before* the native removal. -/
theorem C2_counterexample : engineOnlyAfterNative (removeChild true true 0) = false := by
  decide

/-- C2 (amended): each `Node.prototype` interceptor pushes its queue frame
first, pops it last (established by `C1`-style framing) and performs
exactly one native mutation in between — but the Connect/Disconnect/Upgrade
engine calls are not all made after the native mutation.  Precisely:
`disconnectTree` calls always precede the native call; `connectTree`
follows the native call in the element branches of `insertBefore` /
`appendChild` but precedes it in their document-fragment branches; in
`removeChild`, `replaceChild` and the `textContent` setter every engine
call precedes the native call; and `cloneNode`'s patch/upgrade call does
follow the native clone. -/
theorem C2_engine_call_ordering :
    (∀ (frag isEl conn pre post : Bool) (n : Nat),
        countNative (insertBefore frag isEl conn pre post n) = 1
      ∧ (afterNative (insertBefore frag isEl conn pre post n)).all
          (fun e => !isDisconnectE e) = true
      ∧ ((if frag then afterNative (insertBefore frag isEl conn pre post n)
          else beforeNative (insertBefore frag isEl conn pre post n)).all
          (fun e => !isConnectE e)) = true
      ∧ countNative (appendChild frag isEl conn pre post n) = 1
      ∧ (afterNative (appendChild frag isEl conn pre post n)).all
          (fun e => !isDisconnectE e) = true
      ∧ ((if frag then afterNative (appendChild frag isEl conn pre post n)
          else beforeNative (appendChild frag isEl conn pre post n)).all
          (fun e => !isConnectE e)) = true)
  ∧ (∀ (reg : Bool) (c : Nat),
        countNative (cloneNode reg c) = 1
      ∧ (beforeNative (cloneNode reg c)).all
          (fun e => !(isPatchTreeE e || isPatchAndUpgradeE e)) = true)
  ∧ (∀ (isEl conn : Bool) (n : Nat),
        countNative (removeChild isEl conn n) = 1
      ∧ (afterNative (removeChild isEl conn n)).all (fun e => !isEngineCall e) = true)
  ∧ (∀ (frag isEl conn pre : Bool) (n m : Nat),
        countNative (replaceChild frag isEl conn pre n m) = 1
      ∧ (afterNative (replaceChild frag isEl conn pre n m)).all
          (fun e => !isEngineCall e) = true)
  ∧ (∀ (txt conn : Bool) (cs : List Nat),
        countNative (textContent_set txt conn cs) = 1
      ∧ (afterNative (textContent_set txt conn cs)).all
          (fun e => !isEngineCall e) = true) := by
  refine ⟨?_, ?_, ?_, ?_, ?_⟩
  · intro a b c d e n
    cases a <;> cases b <;> cases c <;> cases d <;> cases e <;>
      exact ⟨rfl, rfl, rfl, rfl, rfl, rfl⟩
  · intro a c; cases a <;> exact ⟨rfl, rfl⟩
  · intro a b n; cases a <;> cases b <;> exact ⟨rfl, rfl⟩
  · intro a b c d n m
    cases a <;> cases b <;> cases c <;> cases d <;> exact ⟨rfl, rfl⟩
  · intro a b cs
    cases a <;> cases b <;>
      refine ⟨?_, ?_⟩ <;>
        simp [textContent_set, countNative, afterNative, countNative_disconnects,
          afterNative_disconnects, isNative, isEngineCall, isConnectE, isDisconnectE,
          List.dropWhile]

/-! ### C3 — when connectTree/disconnectTree are invoked -/

/-- C3 counterexample: the claim says neither `disconnectTree` nor
`connectTree` is invoked for a node whose connectedness the operation does
not change.  But `insertBefore`, moving a connected element (connected both
before and after the operation, i.e. connectedness unchanged), invokes
*both*. -/
theorem C3_counterexample :
    Event.disconnectTree 5 ∈ insertBefore false true true true true 5
  ∧ Event.connectTree 5 ∈ insertBefore false true true true true 5 := by decide

/-- C3 (amended): for the patched structural operations, `disconnectTree`
is invoked on the moved node exactly when the node was connected before the
operation (and is an element outside the fragment branch), and
`connectTree` exactly when it is connected after the operation — so a node
that is connected both before and after receives a disconnect *and* a
connect (a move is treated as disconnect-then-reconnect), and only a node
disconnected both before and after receives neither. -/
theorem C3_connect_disconnect_exactness :
    (∀ (frag isEl conn pre post : Bool) (n : Nat),
        (Event.disconnectTree n ∈ insertBefore frag isEl conn pre post n ↔
          frag = false ∧ isEl = true ∧ pre = true)
      ∧ (Event.connectTree n ∈ insertBefore frag isEl conn pre post n ↔
          ((frag = true ∧ conn = true) ∨ (frag = false ∧ isEl = true ∧ post = true)))
      ∧ (Event.disconnectTree n ∈ appendChild frag isEl conn pre post n ↔
          frag = false ∧ isEl = true ∧ pre = true)
      ∧ (Event.connectTree n ∈ appendChild frag isEl conn pre post n ↔
          ((frag = true ∧ conn = true) ∨ (frag = false ∧ isEl = true ∧ post = true))))
  ∧ (∀ (isEl conn : Bool) (n e : Nat),
        (Event.disconnectTree n ∈ removeChild isEl conn n ↔ isEl = true ∧ conn = true)
      ∧ Event.connectTree e ∉ removeChild isEl conn n)
  ∧ (∀ (w p : Bool) (n : Nat),
        (Event.disconnectTree n ∈ insertAdjacentElement w p n ↔ w = true)
      ∧ (Event.connectTree n ∈ insertAdjacentElement w p n ↔ p = true)) := by
  refine ⟨?_, ?_, ?_⟩
  · intro a b c d e n
    cases a <;> cases b <;> cases c <;> cases d <;> cases e <;>
      simp [insertBefore, appendChild]
  · intro a b n e
    cases a <;> cases b <;> simp [removeChild]
  · intro a b n
    cases a <;> cases b <;> simp [insertAdjacentElement]

/-! ### C4 — callback values are native-store reads, not requested values -/

/-- C4: on a custom-state element, every attribute-changed notification
dispatched by the patched `setAttribute`, `setAttributeNS`,
`removeAttribute`, `removeAttributeNS` carries values taken from the native
attribute store — the old value as read natively just before the native
mutation, the new value as read back natively after the native mutation
completed (for `removeAttribute`, the dispatched `null` equals the
post-removal native read, by the native-removal hypothesis `hrm`) — never
the caller-requested value itself.  The first conjunct records that the
dispatch happens with the native mutation applied. -/
theorem C4_values_read_back (api : NativeApi) (el : Elem) (name v : String)
    (ns : Option String)
    (hc : el.CE_state = CEState.custom)
    (hrm : api.getAttribute (api.removeAttribute el.store name) name = none) :
    (setAttribute api el name v).1.store = api.setAttribute el.store name v
  ∧ (setAttribute api el name v).2 =
      [Event.attributeChangedCallback el.id name
        (api.getAttribute el.store name)
        (api.getAttribute (api.setAttribute el.store name v) name) none]
  ∧ (setAttributeNS api el ns name v).2 =
      [Event.attributeChangedCallback el.id name
        (api.getAttributeNS el.store ns name)
        (api.getAttributeNS (api.setAttributeNS el.store ns name v) ns name) ns]
  ∧ (∀ e ∈ (removeAttribute api el name).2,
      e = Event.attributeChangedCallback el.id name
        (api.getAttribute el.store name)
        (api.getAttribute (api.removeAttribute el.store name) name) none)
  ∧ (∀ e ∈ (removeAttributeNS api el ns name).2,
      e = Event.attributeChangedCallback el.id name
        (api.getAttributeNS el.store ns name)
        (api.getAttributeNS (api.removeAttributeNS el.store ns name) ns name) ns) := by
  refine ⟨?_, ?_, ?_, ?_, ?_⟩
  · simp [setAttribute, hc]
  · simp [setAttribute, hc]
  · simp [setAttributeNS, hc]
  · rcases h : api.getAttribute el.store name with _ | val <;>
      simp [removeAttribute, hc, h, hrm]
  · by_cases h : api.getAttributeNS el.store ns name =
        api.getAttributeNS (api.removeAttributeNS el.store ns name) ns name <;>
      simp [removeAttributeNS, hc, h]

/-- C4 witness: `C4_values_read_back` applied to the reference native store
and a concrete custom-state element. -/
theorem C4_witness :
    (setAttribute stdApi elemCustom "x" "b").1.store =
      stdApi.setAttribute elemCustom.store "x" "b"
  ∧ (setAttribute stdApi elemCustom "x" "b").2 =
      [Event.attributeChangedCallback elemCustom.id "x"
        (stdApi.getAttribute elemCustom.store "x")
        (stdApi.getAttribute (stdApi.setAttribute elemCustom.store "x" "b") "x") none]
  ∧ (setAttributeNS stdApi elemCustom none "x" "b").2 =
      [Event.attributeChangedCallback elemCustom.id "x"
        (stdApi.getAttributeNS elemCustom.store none "x")
        (stdApi.getAttributeNS (stdApi.setAttributeNS elemCustom.store none "x" "b") none "x") none]
  ∧ (∀ e ∈ (removeAttribute stdApi elemCustom "x").2,
      e = Event.attributeChangedCallback elemCustom.id "x"
        (stdApi.getAttribute elemCustom.store "x")
        (stdApi.getAttribute (stdApi.removeAttribute elemCustom.store "x") "x") none)
  ∧ (∀ e ∈ (removeAttributeNS stdApi elemCustom none "x").2,
      e = Event.attributeChangedCallback elemCustom.id "x"
        (stdApi.getAttributeNS elemCustom.store none "x")
        (stdApi.getAttributeNS (stdApi.removeAttributeNS elemCustom.store none "x") none "x") none) :=
  C4_values_read_back stdApi elemCustom "x" "b" none (by decide) (by decide)

/-! ### C5 — no-op changes and the dispatch -/

/-- C5 counterexample: the claim says a no-op change (value read back equal
to the value read before) never reaches the attribute-changed dispatch.
But the patched `setAttribute`, setting attribute `x` of a custom-state
element to the value it already has, dispatches a notification with equal
old and new values. -/
theorem C5_counterexample :
    (setAttribute stdApi elemCustom "x" "a").2 =
      [Event.attributeChangedCallback 1 "x" (some "a") (some "a") none] := by decide

/-- C5 (amended): only the patched `removeAttribute` and `removeAttributeNS`
guard against a no-op dispatch — `removeAttribute` dispatches iff the
attribute was present before removal, `removeAttributeNS` iff the
pre-removal value differs from the post-removal read-back.  The patched
`setAttribute` and `setAttributeNS` on a custom-state element always
dispatch exactly one attribute-changed notification, even when the value
read back equals the value read before. -/
theorem C5_noop_guards (api : NativeApi) (el : Elem) (name v : String)
    (ns : Option String) (hc : el.CE_state = CEState.custom) :
    (setAttribute api el name v).2.length = 1
  ∧ (setAttributeNS api el ns name v).2.length = 1
  ∧ ((removeAttribute api el name).2 = [] ↔ api.getAttribute el.store name = none)
  ∧ ((removeAttributeNS api el ns name).2 = [] ↔
      api.getAttributeNS el.store ns name =
        api.getAttributeNS (api.removeAttributeNS el.store ns name) ns name) := by
  refine ⟨?_, ?_, ?_, ?_⟩
  · simp [setAttribute, hc]
  · simp [setAttributeNS, hc]
  · rcases h : api.getAttribute el.store name with _ | val <;>
      simp [removeAttribute, hc, h]
  · by_cases h : api.getAttributeNS el.store ns name =
        api.getAttributeNS (api.removeAttributeNS el.store ns name) ns name <;>
      simp [removeAttributeNS, hc, h]

/-- C5 witness: `C5_noop_guards` applied to the reference native store and
a concrete custom-state element. -/
theorem C5_witness :
    (setAttribute stdApi elemCustom "x" "a").2.length = 1
  ∧ (setAttributeNS stdApi elemCustom none "x" "a").2.length = 1
  ∧ ((removeAttribute stdApi elemCustom "x").2 = [] ↔
      stdApi.getAttribute elemCustom.store "x" = none)
  ∧ ((removeAttributeNS stdApi elemCustom none "x").2 = [] ↔
      stdApi.getAttributeNS elemCustom.store none "x" =
        stdApi.getAttributeNS (stdApi.removeAttributeNS elemCustom.store none "x") none "x") :=
  C5_noop_guards stdApi elemCustom "x" "a" none (by decide)

/-! ### C6 — attribute mutation on not-yet-upgraded nodes -/

/-- C6 counterexample: the claim says an attribute mutation on an
`uncustomized`/`undefined` node appends the change to the node's
recorded-attribute backlog.  But the patched `setAttribute` on an
uncustomized element takes the non-custom fast path: the native store is
mutated, yet the recorded-attribute backlog stays empty and nothing is
dispatched. -/
theorem C6_counterexample :
    (setAttribute stdApi elemUncustomized "x" "v").1.recordedAttrs = []
  ∧ (setAttribute stdApi elemUncustomized "x" "v").2 = []
  ∧ (setAttribute stdApi elemUncustomized "x" "v").1.store = [((none, "x"), "v")] := by
  decide

/-- C6 (amended): on a node in the `uncustomized` or `undefined` state the
patched attribute operations perform only the native mutation and return —
the interceptor appends nothing to the node's recorded-attribute backlog
and dispatches nothing (the attribute values are available in the native
store when the node is later upgraded). -/
theorem C6_non_custom_fast_path (api : NativeApi) (el : Elem) (name v : String)
    (ns : Option String)
    (h : el.CE_state = CEState.uncustomized ∨ el.CE_state = CEState.undefinedState) :
    setAttribute api el name v =
      ({ el with store := api.setAttribute el.store name v }, [])
  ∧ setAttributeNS api el ns name v =
      ({ el with store := api.setAttributeNS el.store ns name v }, [])
  ∧ removeAttribute api el name =
      ({ el with store := api.removeAttribute el.store name }, [])
  ∧ removeAttributeNS api el ns name =
      ({ el with store := api.removeAttributeNS el.store ns name }, []) := by
  rcases h with h | h <;>
    exact ⟨by simp [setAttribute, h], by simp [setAttributeNS, h],
      by simp [removeAttribute, h], by simp [removeAttributeNS, h]⟩

/-- C6 witness: `C6_non_custom_fast_path` applied to a concrete
uncustomized element. -/
theorem C6_witness :
    setAttribute stdApi elemUncustomized "x" "v" =
      ({ elemUncustomized with store := stdApi.setAttribute elemUncustomized.store "x" "v" }, [])
  ∧ setAttributeNS stdApi elemUncustomized none "x" "v" =
      ({ elemUncustomized with store := stdApi.setAttributeNS elemUncustomized.store none "x" "v" }, [])
  ∧ removeAttribute stdApi elemUncustomized "x" =
      ({ elemUncustomized with store := stdApi.removeAttribute elemUncustomized.store "x" }, [])
  ∧ removeAttributeNS stdApi elemUncustomized none "x" =
      ({ elemUncustomized with store := stdApi.removeAttributeNS elemUncustomized.store none "x" }, []) :=
  C6_non_custom_fast_path stdApi elemUncustomized "x" "v" none (Or.inl (by decide))

/-! ### C7 — registry gating of patchTree vs patchAndUpgradeTree -/

/-- C7: `cloneNode` (reading `ownerDocument.__CE_registry`) and the
`innerHTML`/`outerHTML` setters (reading `ownerDocument.__CE_hasRegistry`)
invoke `patchAndUpgradeTree` on the newly introduced nodes exactly when the
owner document is registry-associated, and `patchTree` — so no upgrade —
exactly when it is not.  Hypothesis `h`: the two registry properties agree
(both record the same registry association, established outside the given
sources). -/
theorem C7_registry_gating (d : Doc) (c thisId : Nat) (isConn : Bool) (tree : ETree)
    (states : List (Nat × CEState)) (pn ps ns : Option Nat) (postChildren : List Nat)
    (h : d.CE_registry = d.CE_hasRegistry) :
    (Event.patchAndUpgradeTree c ∈ cloneNode d.CE_registry c ↔ d.CE_hasRegistry = true)
  ∧ (Event.patchTree c ∈ cloneNode d.CE_registry c ↔ d.CE_hasRegistry = false)
  ∧ (Event.patchAndUpgradeTree thisId ∈
      (patch_innerHTML_set d.CE_hasRegistry thisId isConn tree states pn ps ns).1 ↔
        d.CE_hasRegistry = true)
  ∧ (Event.patchTree thisId ∈
      (patch_innerHTML_set d.CE_hasRegistry thisId isConn tree states pn ps ns).1 ↔
        d.CE_hasRegistry = false)
  ∧ (d.CE_hasRegistry = true → ∀ n, Event.patchTree n ∉
      (patch_outerHTML_set d.CE_hasRegistry thisId isConn tree states pn ps ns postChildren).1)
  ∧ (d.CE_hasRegistry = false → ∀ n, Event.patchAndUpgradeTree n ∉
      (patch_outerHTML_set d.CE_hasRegistry thisId isConn tree states pn ps ns postChildren).1) := by
  cases hr : d.CE_hasRegistry <;> rw [hr] at h <;>
    cases hcb : patch_outerHTML_callback postChildren pn ps ns <;>
      simp [cloneNode, patch_innerHTML_set, patch_outerHTML_set, patch_HTMLsetter_set,
        h, hcb, List.mem_map, List.mem_append, List.mem_filter] <;>
      cases isConn <;> simp

/-- C7 witness: `C7_registry_gating` applied to a registry-associated
document and a concrete one-element subtree. -/
theorem C7_witness :
    (Event.patchAndUpgradeTree 3 ∈ cloneNode docReg.CE_registry 3 ↔
      docReg.CE_hasRegistry = true)
  ∧ (Event.patchTree 3 ∈ cloneNode docReg.CE_registry 3 ↔ docReg.CE_hasRegistry = false)
  ∧ (Event.patchAndUpgradeTree 1 ∈
      (patch_innerHTML_set docReg.CE_hasRegistry 1 true treeOne [] none none none).1 ↔
        docReg.CE_hasRegistry = true)
  ∧ (Event.patchTree 1 ∈
      (patch_innerHTML_set docReg.CE_hasRegistry 1 true treeOne [] none none none).1 ↔
        docReg.CE_hasRegistry = false)
  ∧ (docReg.CE_hasRegistry = true → ∀ n, Event.patchTree n ∉
      (patch_outerHTML_set docReg.CE_hasRegistry 1 true treeOne [] none none none []).1)
  ∧ (docReg.CE_hasRegistry = false → ∀ n, Event.patchAndUpgradeTree n ∉
      (patch_outerHTML_set docReg.CE_hasRegistry 1 true treeOne [] none none none []).1) :=
  C7_registry_gating docReg 3 1 true treeOne [] none none none [] (by decide)

/-! ### C8 — insertAdjacentHTML materialises the range before upgrading -/

/-- The visited nodes of an empty trace. -/
lemma visitedOf_nil : visitedOf [] = [] := rfl

/-- The nodes visited by a native call followed by a block of
`patchAndUpgradeTree` calls. -/
lemma visitedOf_native_patches (s : String) (l : List Nat) :
    visitedOf (Event.native s :: l.map Event.patchAndUpgradeTree) = l := by
  induction l with
  | nil => rfl
  | cons x xs ih => simpa [visitedOf] using ih

/-- C8: the patched `insertAdjacentHTML` first materialises the range of
newly inserted siblings into a fixed sequence and only then invokes
`patchAndUpgradeTree` on them.  Consequently (first conjunct) the emitted
trace — which nodes are visited, in which order — is the same for *any*
upgrade effect and any upgrade state: upgrades triggered on earlier nodes
of the range cannot change which nodes of the range are visited.  The
second conjunct shows the final state is exactly the fold of the upgrade
effect over that fixed visited sequence. -/
theorem C8_range_materialised {α β : Type} (u1 : α → Nat → α) (u2 : β → Nat → β)
    (s1 : α) (s2 : β) (thisId : Nat) (ctx : AdjacentCtx) (pos t : String) :
    (insertAdjacentHTML u1 s1 thisId ctx pos t).2 =
      (insertAdjacentHTML u2 s2 thisId ctx pos t).2
  ∧ (insertAdjacentHTML u1 s1 thisId ctx pos t).1 =
      (visitedOf (insertAdjacentHTML u1 s1 thisId ctx pos t).2.1).foldl u1 s1 := by
  simp only [insertAdjacentHTML, upgradeNodesInRange]
  split <;> (try split) <;> (try split) <;> (try split) <;>
    simp [visitedOf_native_patches, visitedOf_nil]

/-! ### C9 — synchronous programmer-misuse exceptions -/

/-- C9: the patched `insertAdjacentHTML`, called with a position string
that (after lower-casing, as the source compares) is none of the four valid
enumerated values, throws a `SyntaxError` synchronously — with the upgrade
state untouched and an empty trace, i.e. before any native mutation is
performed; and the patched `outerHTML` setter on an element with no parent
node throws an `Error` to its caller. -/
theorem C9_misuse_exceptions {α : Type} (u : α → Nat → α) (st : α) (thisId : Nat)
    (ctx : AdjacentCtx) (pos t : String) (reg conn : Bool) (tree : ETree)
    (states : List (Nat × CEState)) (ps ns : Option Nat) (postChildren : List Nat)
    (h : toLowerAscii pos ∉ ["beforebegin", "afterbegin", "beforeend", "afterend"]) :
    (insertAdjacentHTML u st thisId ctx pos t).1 = st
  ∧ (insertAdjacentHTML u st thisId ctx pos t).2.1 = []
  ∧ isInvalidPositionErr (insertAdjacentHTML u st thisId ctx pos t).2.2 = true
  ∧ isNoParentErr
      (patch_outerHTML_set reg thisId conn tree states none ps ns postChildren).2 = true := by
  simp [List.mem_cons, not_or] at h
  obtain ⟨h1, h2, h3, h4⟩ := h
  refine ⟨?_, ?_, ?_, ?_⟩ <;>
    first
      | simp [insertAdjacentHTML, h1, h2, h3, h4, isInvalidPositionErr]
      | (cases conn <;> cases reg <;>
          simp [patch_outerHTML_set, patch_HTMLsetter_set, patch_outerHTML_callback,
            isNoParentErr])

/-- C9 witness: `C9_misuse_exceptions` applied to the invalid position
string `bogus` and a parentless element. -/
theorem C9_witness :
    (insertAdjacentHTML (fun (s : Unit) _ => s) () 1 ctxEmpty "bogus" "<p>").1 = ()
  ∧ (insertAdjacentHTML (fun (s : Unit) _ => s) () 1 ctxEmpty "bogus" "<p>").2.1 = []
  ∧ isInvalidPositionErr
      (insertAdjacentHTML (fun (s : Unit) _ => s) () 1 ctxEmpty "bogus" "<p>").2.2 = true
  ∧ isNoParentErr (patch_outerHTML_set true 1 true treeOne [] none none none []).2 = true :=
  C9_misuse_exceptions (fun (s : Unit) _ => s) () 1 ctxEmpty "bogus" "<p>" true true
    treeOne [] none none [] (by decide)

/-! ### C10 — disconnected notifications from the HTML setters -/

/-- `disconnectedCallback` dispatches pass the disconnected-callback
filter unchanged. -/
lemma filter_dc_map_dc (l : List Nat) :
    (l.map Event.disconnectedCallback).filter isDisconnectedCb =
      l.map Event.disconnectedCallback := by
  induction l with
  | nil => rfl
  | cons x xs ih => simp [isDisconnectedCb, ih]

/-- `patchTree` calls are not disconnected-callback dispatches. -/
lemma filter_dc_map_patchTree (l : List Nat) :
    (l.map Event.patchTree).filter isDisconnectedCb = [] := by
  induction l with
  | nil => rfl
  | cons x xs ih => simp [isDisconnectedCb, ih]

/-- `patchAndUpgradeTree` calls are not disconnected-callback dispatches. -/
lemma filter_dc_map_patchUp (l : List Nat) :
    (l.map Event.patchAndUpgradeTree).filter isDisconnectedCb = [] := by
  induction l with
  | nil => rfl
  | cons x xs ih => simp [isDisconnectedCb, ih]

/-- C10: the shared HTML-setter body (hence both the patched `innerHTML`
and `outerHTML` setters, for every property-specific callback `cb`), run on
a connected element, dispatches `disconnectedCallback` exactly to the
elements collected from the target's pre-mutation subtree walk — excluding
the target itself — whose `__CE_state` is `custom`, in walk order; the
target never receives one; and on a non-connected element no
disconnected notification is dispatched at all. -/
theorem C10_disconnected_delivery
    (cb : Option Nat → Option Nat → Option Nat → Except Exn (List Nat))
    (reg : Bool) (thisId : Nat) (tree : ETree) (states : List (Nat × CEState))
    (pn ps ns : Option Nat) :
    ((patch_HTMLsetter_set cb reg thisId true tree states pn ps ns).1.filter
        isDisconnectedCb =
      (((walkDeepDescendantElements tree).filter (fun e => e ≠ thisId)).filter
        (fun e => stateOf states e = CEState.custom)).map Event.disconnectedCallback)
  ∧ Event.disconnectedCallback thisId ∉
      (patch_HTMLsetter_set cb reg thisId true tree states pn ps ns).1
  ∧ (patch_HTMLsetter_set cb reg thisId false tree states pn ps ns).1.filter
      isDisconnectedCb = [] := by
  refine ⟨?_, ?_, ?_⟩
  · cases hcb : cb pn ps ns <;> cases reg <;>
      simp [patch_HTMLsetter_set, hcb, isDisconnectedCb, isNative,
        filter_dc_map_dc, filter_dc_map_patchTree, filter_dc_map_patchUp]
  · cases hcb : cb pn ps ns <;> cases reg <;>
      simp [patch_HTMLsetter_set, hcb, List.mem_append, List.mem_map, List.mem_filter]
  · cases hcb : cb pn ps ns <;> cases reg <;>
      simp [patch_HTMLsetter_set, hcb, isDisconnectedCb,
        filter_dc_map_patchTree, filter_dc_map_patchUp]

end CEPolyfill
